import Mathlib

/-!
Shallow embedding of the device identity resolution and safety
classification engine of the Loeschstation repository
(modules/device_scan.py, modules/raid_storcli.py, modules/secure_erase.py,
modules/fio_runner.py, modules/badblocks_runner.py, modules/nwipe_runner.py),
together with theorems settling the frozen claims about it.

Python strings are modelled as Lean String; a missing dictionary key and an
empty string both behave as the falsy value in every chain the embedded code
uses, so optional string fields are modelled as String with the empty string
for "absent".  Python floats produced by size parsing are modelled as exact
rationals.  External process calls (storcli detail queries, udev) are
modelled as explicit world parameters.
-/

set_option autoImplicit false

namespace Loeschstation

/-! ### Python string primitives used by the source -/

/-- Python whitespace characters recognised by str.strip and regex \s. -/
def is_py_space (c : Char) : Bool :=
  c = ' ' || c = '\t' || c = '\n' || c = '\x0d' || c = '\x0b' || c = '\x0c'

/-- Python str.strip(): drop whitespace from both ends. -/
def py_strip (s : String) : String :=
  (((s.toList.dropWhile is_py_space).reverse.dropWhile is_py_space).reverse).asString

/-- Python str.upper() restricted to ASCII data. -/
def py_upper (s : String) : String :=
  (s.toList.map Char.toUpper).asString

/-- Python str.startswith(p): p is a prefix of s. -/
def py_startswith (s p : String) : Bool :=
  p.toList.isPrefixOf s.toList

/-- Python "a or b" on strings: first operand unless it is falsy (empty). -/
def py_or (a b : String) : String :=
  if a = "" then b else a

/-- Python str.rstrip(c) for the slash character. -/
def rstrip_slash (s : String) : String :=
  ((s.toList.reverse.dropWhile (fun c => c = '/')).reverse).asString

/-- Python int(str(v)) wrapped in try/except, as in raid_storcli._safe_int:
leading/trailing whitespace, an optional sign, then at least one digit. -/
def py_safe_int (s : String) : Option Int :=
  let t := (py_strip s).toList
  let core : Option (Bool × List Char) :=
    match t with
    | '-' :: rest => some (true, rest)
    | '+' :: rest => some (false, rest)
    | rest => some (false, rest)
  match core with
  | some (neg, ds) =>
      if ds ≠ [] ∧ ds.all Char.isDigit then
        let n : Nat := ds.foldl (fun acc c => 10 * acc + (c.toNat - '0'.toNat)) 0
        some (if neg then -(n : Int) else (n : Int))
      else none
  | none => none

/-! ### device_scan._size_to_bytes

Converts lsblk size strings such as "1.8T" into byte counts for comparison.
The Python source returns a float; the embedding computes the same decimal
value exactly in the rationals.  The regex
([0-9]*\.?[0-9]+)\s*([KMGT]?) with IGNORECASE, anchored at the start of the
stripped string, is unfolded into explicit prefix parsing. -/

/-- Digit list to natural number. -/
def digits_to_nat (ds : List Char) : Nat :=
  ds.foldl (fun acc c => 10 * acc + (c.toNat - '0'.toNat)) 0

/-- Multiplier for the (case-insensitively matched) unit character. -/
def unit_multiplier (c : Char) : Option Nat :=
  if c = 'K' || c = 'k' then some 1000
  else if c = 'M' || c = 'm' then some 1000000
  else if c = 'G' || c = 'g' then some 1000000000
  else if c = 'T' || c = 't' then some 1000000000000
  else none

/-- Parse the numeric group of the size regex at the start of cs.
Returns the value as a rational together with the remaining characters. -/
def parse_size_number (cs : List Char) : Option (Rat × List Char) :=
  let d1 := cs.takeWhile Char.isDigit
  let rest1 := cs.dropWhile Char.isDigit
  match rest1 with
  | '.' :: r2 =>
      let d2 := r2.takeWhile Char.isDigit
      let rest2 := r2.dropWhile Char.isDigit
      if d2 ≠ [] then
        some ((digits_to_nat d1 : Rat) + (digits_to_nat d2 : Rat) / ((10 : Rat) ^ d2.length), rest2)
      else if d1 ≠ [] then some ((digits_to_nat d1 : Rat), rest1) else none
  | _ =>
      if d1 ≠ [] then some ((digits_to_nat d1 : Rat), rest1) else none

/-- device_scan._size_to_bytes. -/
def size_to_bytes (size_str : String) : Rat :=
  if size_str = "" then 0
  else
    match parse_size_number (py_strip size_str).toList with
    | none => 0
    | some (value, rest) =>
        let rest2 := rest.dropWhile is_py_space
        let mult : Nat :=
          match rest2 with
          | c :: _ => (unit_multiplier c).getD 1
          | [] => 1
        value * (mult : Rat)

/-! ### Unified Device record

One record models the Python device dictionaries produced by
device_scan.scan_linux_disks and device_scan.scan_megaraid_devices and
consumed by the runners.  Fields the resolution logic never reads
(fio results, erase bookkeeping) are omitted; absent string keys are the
empty string.  Kernel addressing is recognisable by path being a /dev
kernel path, controller addressing by path being a /dev/megaraid virtual
path (as in the source, where no explicit tag exists). -/

structure Device where
  target : String := ""
  device : String := ""
  bay : String := ""
  path : String := ""
  size : String := ""
  model : String := ""
  serial : String := ""
  transport : String := ""
  os_path : String := ""
  mountpoints : List String := []
  is_system : Bool := false
  erase_allowed : Bool := false
  device_id : String := ""
deriving Repr, DecidableEq

/-! ### device_scan._pick_largest_device -/

/-- One step of the loop in _pick_largest_device: keep the candidate whose
parsed size is strictly larger than the best seen so far. -/
def pick_step (acc : Option Device × Rat) (dev : Device) : Option Device × Rat :=
  let size_bytes := size_to_bytes dev.size
  if size_bytes > acc.2 then (some dev, size_bytes) else acc

/-- device_scan._pick_largest_device: loop over the list with the running
largest device, starting from (None, -1.0). -/
def pick_largest_device (devices : List Device) : Option Device :=
  (devices.foldl pick_step (none, -1)).1

/-- Claim-side description of the tie-break: the first element of the list
attaining the maximum parsed size, strict greater-than comparison. -/
def first_largest_from (a : Device) : List Device → Device
  | [] => a
  | d :: ds =>
      if size_to_bytes d.size > size_to_bytes a.size then first_largest_from d ds
      else first_largest_from a ds

/-! ### device_scan mountpoint / system-disk classification -/

/-- device_scan.SYSTEM_MOUNTPOINTS. -/
def SYSTEM_MOUNTPOINTS : List String := ["/", "/boot", "/boot/efi", "/usr", "/var", "/home"]

/-- device_scan._is_system_mountpoint: some mountpoint equals a protected
mountpoint or starts with it (trailing slashes stripped, slash appended). -/
def is_system_mountpoint (mountpoints : List String) : Bool :=
  mountpoints.any (fun mp =>
    SYSTEM_MOUNTPOINTS.any (fun system_mp =>
      mp = system_mp || py_startswith mp (rstrip_slash system_mp ++ "/")))

/-! ### Raw lsblk tree (input of scan_linux_disks)

A raw lsblk block device as parsed from lsblk -O -J: the fields the scan
reads, with the recursive children tree.  rm is kept as the string the
source compares after str(...).strip(); hotplug models "hotplug is True". -/

mutual
inductive RawDev where
  | mk (name path typ size model serial tran subsystems rm : String)
       (hotplug : Bool) (mountpoints : List String) (children : RawChildren)
inductive RawChildren where
  | nil
  | cons (d : RawDev) (rest : RawChildren)
end

def RawDev.name : RawDev → String | .mk n _ _ _ _ _ _ _ _ _ _ _ => n
def RawDev.path : RawDev → String | .mk _ p _ _ _ _ _ _ _ _ _ _ => p
def RawDev.typ : RawDev → String | .mk _ _ t _ _ _ _ _ _ _ _ _ => t
def RawDev.size : RawDev → String | .mk _ _ _ s _ _ _ _ _ _ _ _ => s
def RawDev.model : RawDev → String | .mk _ _ _ _ m _ _ _ _ _ _ _ => m
def RawDev.serial : RawDev → String | .mk _ _ _ _ _ s _ _ _ _ _ _ => s
def RawDev.tran : RawDev → String | .mk _ _ _ _ _ _ t _ _ _ _ _ => t
def RawDev.subsystems : RawDev → String | .mk _ _ _ _ _ _ _ s _ _ _ _ => s
def RawDev.rm : RawDev → String | .mk _ _ _ _ _ _ _ _ r _ _ _ => r
def RawDev.hotplug : RawDev → Bool | .mk _ _ _ _ _ _ _ _ _ h _ _ => h

mutual
/-- device_scan._collect_mountpoints: own non-empty mountpoints plus the
mountpoints of all children, recursively.  The Python set union is modelled
as a concatenated list; only membership is ever consumed. -/
def collect_mountpoints : RawDev → List String
  | .mk _ _ _ _ _ _ _ _ _ _ mps children =>
      mps.filter (fun mp => mp ≠ "") ++ collect_mountpoints_children children
def collect_mountpoints_children : RawChildren → List String
  | .nil => []
  | .cons d rest => collect_mountpoints d ++ collect_mountpoints_children rest
end

/-- device_scan._is_internal_mainboard_disk. -/
def is_internal_mainboard_disk (dev : RawDev) (transport : String) : Bool :=
  (transport = "sata" || transport = "ata" || transport = "nvme")
    && py_strip dev.rm = "0"
    && !dev.hotplug
    && !(transport = "usb")

/-- The transport string computed in scan_linux_disks:
str(dev.get("tran") or dev.get("subsystems") or "").lower(); the lowering is
modelled for ASCII data. -/
def raw_transport (dev : RawDev) : String :=
  ((py_or dev.tran dev.subsystems).toList.map Char.toLower).asString

/-- The body of the loop in device_scan.scan_linux_disks for one raw disk:
path fallback, transport selection, mountpoint collection, system-disk
classification, and the categorical erase_allowed = False. -/
def mk_linux_device (dev : RawDev) : Device :=
  let path := py_or dev.path ("/dev/" ++ dev.name)
  let transport := raw_transport dev
  let mountpoints := (collect_mountpoints dev).eraseDups
  let is_system0 := is_system_mountpoint mountpoints
  let is_system :=
    if transport = "sata" || transport = "ata" then true
    else if is_internal_mainboard_disk dev transport then true
    else is_system0
  { device := py_or dev.name path
    bay := py_or dev.name path
    path := path
    size := dev.size
    model := dev.model
    serial := dev.serial
    transport := transport
    mountpoints := mountpoints
    is_system := is_system
    erase_allowed := false
    device_id := path }

/-- device_scan.scan_linux_disks over parsed lsblk data: keep entries with
type "disk" and classify each. -/
def scan_linux_disks (blockdevices : List RawDev) : List Device :=
  (blockdevices.filter (fun dev => dev.typ = "disk")).map mk_linux_device

/-! ### Controller inventory records and scan_megaraid_devices -/

/-- A physical-drive record as returned by raid_storcli.list_physical_drives. -/
structure StorPD where
  controller : Int := 0
  eid_slt : String := ""
  eid : Option Int := none
  slot : Option Int := none
  size : String := ""
  intf : String := ""
  med : String := ""
  model : String := ""
  serial : String := ""
  state : String := ""
  os_path : String := ""
deriving Repr, DecidableEq

/-- The device record built in device_scan.scan_megaraid_devices for one
physical drive of controller cid: virtual /dev/megaraid path, is_system
False and erase_allowed True by construction. -/
def mk_megaraid_device (cid : Int) (pd : StorPD) : Device :=
  let dev_name := "C" ++ toString cid ++ " PD " ++ pd.eid_slt
  let virtual_path := "/dev/megaraid/" ++ toString cid ++ "/" ++ pd.eid_slt
  { device := dev_name
    bay := dev_name
    path := virtual_path
    size := pd.size
    model := pd.model
    serial := pd.serial
    transport := "storcli:" ++ pd.intf
    os_path := pd.os_path
    is_system := false
    erase_allowed := true
    device_id := virtual_path }

/-- device_scan.scan_megaraid_devices over the controller scan results:
controllers whose id is None are skipped; each drive of each remaining
controller yields one device record.  The storcli error paths (which only
skip a controller and record a warning) are represented by the controller
simply being absent from the input. -/
def scan_megaraid_devices (controllers : List (Option Int × List StorPD)) : List Device :=
  controllers.foldr
    (fun ctrl acc =>
      match ctrl.1 with
      | none => acc
      | some cid => ctrl.2.map (mk_megaraid_device cid) ++ acc)
    []

/-! ### device_scan._match_linux_device (the identity resolver) -/

/-- The value returned for a chosen kernel device:
chosen.get("path") or chosen.get("device"), with the all-falsy case mapped
to None (Python returns a falsy value either way and every caller only
tests truthiness and prefixes). -/
def path_or_device (chosen : Device) : Option String :=
  if chosen.path ≠ "" then some chosen.path
  else if chosen.device ≠ "" then some chosen.device
  else none

/-- The final os_path fallback of _match_linux_device: the drive's direct
OS-path hint, returned when non-empty and starting with /dev/. -/
def os_path_hint (target_info : Device) : Option String :=
  if target_info.os_path ≠ "" && py_startswith target_info.os_path "/dev/" then
    some target_info.os_path
  else none

/-- device_scan._match_linux_device.  The initial falsy-dict guard of the
Python source cannot arise for a record and is omitted. -/
def match_linux_device (target_info : Device) (linux_devices : List Device) : Option String :=
  let target_serial := py_strip target_info.serial
  let target_model := py_strip target_info.model
  let target_size := py_strip target_info.size
  let serial_matches :=
    if target_serial ≠ "" ∧ py_upper target_serial ≠ "UNKNOWN" then
      linux_devices.filter (fun dev => py_strip dev.serial = target_serial)
    else []
  match serial_matches with
  | chosen0 :: rest =>
      match pick_largest_device (chosen0 :: rest) with
      | some chosen => path_or_device chosen
      | none => none
  | [] =>
      if target_model ≠ "" ∧ target_size ≠ "" then
        let model_size_matches :=
          linux_devices.filter (fun dev =>
            py_strip dev.model = target_model ∧ py_strip dev.size = target_size)
        match pick_largest_device model_size_matches with
        | some chosen => path_or_device chosen
        | none => os_path_hint target_info
      else os_path_hint target_info

/-! ### The target resolvers of the destructive-tool runners

The fresh inventory snapshots taken inside resolve_megaraid_target
(scan_megaraid_devices() and scan_linux_disks()) are modelled as an explicit
world argument holding the two scan results of the moment of the call. -/

/-- The pair of fresh scan results observed by a resolver call. -/
structure ScanWorld where
  megaraid : List Device
  linux : List Device

/-- device_scan.resolve_megaraid_target. -/
def resolve_megaraid_target (w : ScanWorld) (dev : Device) : Option String :=
  let path := py_or dev.path dev.device
  if ¬ py_startswith path "/dev/megaraid/" then
    if path ≠ "" then some path else none
  else
    let target_info := ((w.megaraid.find? (fun d => d.path = path)).getD dev)
    match_linux_device target_info w.linux

/-- secure_erase.resolve_erase_target (also used verbatim by the nwipe
runner through nwipe_runner._resolve_target).  RuntimeError is modelled as
the error branch of Except carrying the message text. -/
def resolve_erase_target (w : ScanWorld) (dev : Device) : Except String String :=
  let path := py_or (py_or dev.target dev.path) dev.device
  if py_startswith path "/dev/megaraid/" then
    match resolve_megaraid_target w dev with
    | some resolved =>
        if py_startswith resolved "/dev/sd" || py_startswith resolved "/dev/nvme" then
          Except.ok resolved
        else Except.error "ERROR: MegaRAID-Geraete koennen nicht direkt geloescht werden."
    | none => Except.error "ERROR: MegaRAID-Geraete koennen nicht direkt geloescht werden."
  else
    if py_startswith path "/dev/sd" || py_startswith path "/dev/nvme" then Except.ok path
    else Except.error "ERROR: MegaRAID-Geraete koennen nicht direkt geloescht werden."

/-- nwipe_runner._resolve_target delegates to secure_erase.resolve_erase_target. -/
def nwipe_resolve_target (w : ScanWorld) (dev : Device) : Except String String :=
  resolve_erase_target w dev

/-- fio_runner.resolve_target.  The mapping_hint write-back into the device
dictionary is a side effect on a caller-owned record and does not influence
the returned path; it is not modelled. -/
def fio_resolve_target (w : ScanWorld) (dev : Device) : Except String String :=
  let raw_path := py_or (py_or dev.target dev.path) dev.device
  if raw_path = "" then Except.error "FIO-Device nicht angegeben"
  else if py_startswith raw_path "/dev/megaraid/" then
    match resolve_megaraid_target w dev with
    | some resolved =>
        if py_startswith resolved "/dev/sd" || py_startswith resolved "/dev/nvme" then
          Except.ok resolved
        else Except.error "MegaRAID-Ziel konnte nicht auf /dev/sdX oder /dev/nvmeY gemappt werden"
    | none => Except.error "MegaRAID-Ziel konnte nicht auf /dev/sdX oder /dev/nvmeY gemappt werden"
  else
    if py_startswith raw_path "/dev/sd" || py_startswith raw_path "/dev/nvme" then
      Except.ok raw_path
    else Except.error "FIO-Device nicht resolvable: ungueltiger Pfad"

/-- badblocks_runner._resolve_megaraid_path: first kernel device with equal
size whose model and serial also agree whenever the targets are non-empty. -/
def badblocks_resolve_megaraid_path (linux_devices : List Device) (dev : Device) :
    Except String String :=
  let candidates := linux_devices.filter (fun candidate =>
    candidate.size = dev.size
      && (dev.model = "" || candidate.model = dev.model)
      && (dev.serial = "" || candidate.serial = dev.serial))
  match candidates with
  | candidate :: _ => Except.ok (py_or candidate.path candidate.device)
  | [] => Except.error "Badblocks: MegaRAID-Device konnte nicht aufgeloest werden"

/-- badblocks_runner.resolve_target: any non-empty non-megaraid path is
returned unchanged, with no kernel-path shape check. -/
def badblocks_resolve_target (w : ScanWorld) (dev : Device) : Except String String :=
  let path := py_or dev.path dev.device
  if py_startswith path "/dev/megaraid/" then badblocks_resolve_megaraid_path w.linux dev
  else if path ≠ "" then Except.ok path
  else Except.error "Badblocks: Kein gueltiger Geraetepfad gefunden"

/-! ### Untyped JSON trees (storcli output) -/

mutual
inductive Json where
  | str (s : String)
  | num (n : Int)
  | bool (b : Bool)
  | null
  | obj (fields : JFields)
  | arr (elems : JElems)
inductive JFields where
  | nil
  | cons (key : String) (value : Json) (rest : JFields)
inductive JElems where
  | nil
  | cons (value : Json) (rest : JElems)
end

def jfields_get : JFields → String → Option Json
  | .nil, _ => none
  | .cons k v rest, key => if k = key then some v else jfields_get rest key

/-- Python dict .get on a JSON value (None when not a dict or key absent). -/
def Json.get : Json → String → Option Json
  | .obj fs, key => jfields_get fs key
  | _, _ => none

/-- Python truthiness of a JSON value. -/
def Json.truthy : Json → Bool
  | .str s => s ≠ ""
  | .num n => n ≠ 0
  | .bool b => b
  | .null => false
  | .obj .nil => false
  | .obj (.cons _ _ _) => true
  | .arr .nil => false
  | .arr (.cons _ _) => true

/-- Python str() of a scalar JSON value; container representations never
reach the embedded string chains and are collapsed to the empty string. -/
def Json.py_str : Json → String
  | .str s => s
  | .num n => toString n
  | .bool b => if b then "True" else "False"
  | .null => "None"
  | .obj _ => ""
  | .arr _ => ""

/-- The string value of a key after Python truthiness filtering: a missing
key and a falsy value both act as the empty string in every chain the
source builds with .get(...) or .get(...). -/
def get_str (j : Json) (key : String) : String :=
  match j.get key with
  | some v => if v.truthy then v.py_str else ""
  | none => ""

/-- Python "a or b" on raw JSON lookups (first operand unless falsy). -/
def j_or (a b : Option Json) : Option Json :=
  match a with
  | some v => if v.truthy then some v else b
  | none => b

def jelems_to_list : JElems → List Json
  | .nil => []
  | .cons v rest => v :: jelems_to_list rest

/-- Python "needle in haystack" on strings. -/
def list_contains_sub (needle : List Char) : List Char → Bool
  | [] => needle.isPrefixOf []
  | c :: rest => needle.isPrefixOf (c :: rest) || list_contains_sub needle rest

def contains_substr (hay needle : String) : Bool :=
  list_contains_sub needle.toList hay.toList

def py_lower (s : String) : String :=
  (s.toList.map Char.toLower).asString

/-! ### The regular expressions of raid_storcli, unfolded

regex 1 (raid_storcli regex_fallback, IGNORECASE):
(Serial|S/N|SN)[^\w]*([A-Za-z0-9]\x7b4,\x7d), value = group 2.
regex 2 (inquiry-string fallback, case-sensitive alternation):
([Ss][Nn]|Serial)[^A-Za-z0-9]*([A-Za-z0-9]\x7b4,\x7d), value = group 2.
regex 3 (kernel-path candidates):
/dev/(sd[a-zA-Z]+\d*|nvme\d+n\d+(p\d+)?), value = group 0.
Each is realised by explicit prefix matching at every position, left to
right, with the alternation tried in source order; greedy character-class
repetition is takeWhile, and no backtracking across the class boundaries
can change the outcome because the classes are disjoint. -/

def is_word_char (c : Char) : Bool := c.isAlphanum || c = '_'

/-- Case-insensitive literal prefix: the remainder on success. -/
def ci_drop_lit : List Char → List Char → Option (List Char)
  | [], rest => some rest
  | _ :: _, [] => none
  | p :: ps, c :: rest => if c.toLower = p.toLower then ci_drop_lit ps rest else none

/-- Matches [^\w]* then the captured [A-Za-z0-9] run of length at least 4. -/
def token_after_word_sep (rest : List Char) : Option String :=
  let rest2 := rest.dropWhile (fun c => !is_word_char c)
  let tok := rest2.takeWhile Char.isAlphanum
  if 4 ≤ tok.length then some tok.asString else none

/-- Matches [^A-Za-z0-9]* then the captured [A-Za-z0-9] run of length at least 4. -/
def token_after_alnum_sep (rest : List Char) : Option String :=
  let rest2 := rest.dropWhile (fun c => !c.isAlphanum)
  let tok := rest2.takeWhile Char.isAlphanum
  if 4 ≤ tok.length then some tok.asString else none

def regex1_at (cs : List Char) : Option String :=
  match (ci_drop_lit "Serial".toList cs).bind token_after_word_sep with
  | some tok => some tok
  | none =>
      match (ci_drop_lit "S/N".toList cs).bind token_after_word_sep with
      | some tok => some tok
      | none => (ci_drop_lit "SN".toList cs).bind token_after_word_sep

def regex1_go : List Char → Option String
  | [] => none
  | c :: rest =>
      match regex1_at (c :: rest) with
      | some tok => some tok
      | none => regex1_go rest

def regex1_search (s : String) : Option String := regex1_go s.toList

def regex2_at (cs : List Char) : Option String :=
  let alt1 : Option (List Char) :=
    match cs with
    | c1 :: c2 :: rest =>
        if (c1 = 'S' || c1 = 's') && (c2 = 'N' || c2 = 'n') then some rest else none
    | _ => none
  match alt1.bind token_after_alnum_sep with
  | some tok => some tok
  | none =>
      (if "Serial".toList.isPrefixOf cs then some (cs.drop 6) else none).bind
        token_after_alnum_sep

def regex2_go : List Char → Option String
  | [] => none
  | c :: rest =>
      match regex2_at (c :: rest) with
      | some tok => some tok
      | none => regex2_go rest

def regex2_search (s : String) : Option String := regex2_go s.toList

/-- Try regex 3 anchored at the head of cs; the full matched text. -/
def dev_cand_at (cs : List Char) : Option (List Char) :=
  if ("/dev/".toList).isPrefixOf cs then
    let rest := cs.drop 5
    let sd : Option (List Char) :=
      if ("sd".toList).isPrefixOf rest then
        let letters := (rest.drop 2).takeWhile Char.isAlpha
        if letters ≠ [] then
          let ds := ((rest.drop 2).dropWhile Char.isAlpha).takeWhile Char.isDigit
          some ("/dev/sd".toList ++ letters ++ ds)
        else none
      else none
    match sd with
    | some m => some m
    | none =>
        if ("nvme".toList).isPrefixOf rest then
          let r1 := rest.drop 4
          let d1 := r1.takeWhile Char.isDigit
          let r2 := r1.dropWhile Char.isDigit
          if d1 ≠ [] then
            match r2 with
            | 'n' :: r3 =>
                let d2 := r3.takeWhile Char.isDigit
                let r4 := r3.dropWhile Char.isDigit
                if d2 ≠ [] then
                  let base := "/dev/nvme".toList ++ d1 ++ ['n'] ++ d2
                  match r4 with
                  | 'p' :: r5 =>
                      let d3 := r5.takeWhile Char.isDigit
                      if d3 ≠ [] then some (base ++ ['p'] ++ d3) else some base
                  | _ => some base
                else none
            | _ => none
          else none
        else none
  else none

def cand_scan : List Char → String
  | [] => ""
  | c :: rest =>
      match dev_cand_at (c :: rest) with
      | some m => m.asString
      | none => cand_scan rest

/-- raid_storcli._extract_os_path._candidate_from_string. -/
def candidate_from_string (text : String) : String := cand_scan text.toList

/-! ### raid_storcli._extract_os_path -/

def os_keys : List String :=
  ["os drive name", "os drive name 0", "os drive name 1", "ospath", "os path",
   "os name", "drive name", "drivename"]

mutual
/-- The recursive _scan of raid_storcli._extract_os_path. -/
def os_path_scan : Json → String
  | .obj fs => os_path_scan_fields fs
  | .arr es => os_path_scan_elems es
  | .str s => candidate_from_string s
  | _ => ""
def os_path_scan_fields : JFields → String
  | .nil => ""
  | .cons key v rest =>
      let direct :=
        match v with
        | .str s => if os_keys.contains (py_lower key) then candidate_from_string s else ""
        | _ => ""
      if direct ≠ "" then direct
      else
        let nested := os_path_scan v
        if nested ≠ "" then nested else os_path_scan_fields rest
def os_path_scan_elems : JElems → String
  | .nil => ""
  | .cons v rest =>
      let cand := os_path_scan v
      if cand ≠ "" then cand else os_path_scan_elems rest
end

/-- raid_storcli._extract_os_path: deep scan for a kernel path, else the
synthetic /dev/megaraid placeholder when controller, eid and slot are all
known. -/
def extract_os_path (value : Json) (controller_id eid slot : Option Int) : String :=
  let path := os_path_scan value
  if path = "" then
    match controller_id, eid, slot with
    | some c, some e, some s =>
        "/dev/megaraid/" ++ toString c ++ "/" ++ toString e ++ ":" ++ toString s
    | _, _, _ => ""
  else path

/-! ### raid_storcli._extract_serial_and_model -/

/-- The "Device attributes" loop: walk the fields of the detail dict; a
nested dict under a key containing "Device attributes" supplies the serial
(SN, then Serial Number, then S/N) and, while the model is still empty, the
model; the loop stops at the first serial found. -/
def device_attributes_scan : JFields → String → String × String
  | .nil, model => ("", model)
  | .cons key v rest, model =>
      match v with
      | .obj fs =>
          if contains_substr key "Device attributes" then
            let serial :=
              py_or (py_or (get_str (.obj fs) "SN") (get_str (.obj fs) "Serial Number"))
                (get_str (.obj fs) "S/N")
            let model' :=
              if model = "" then py_or (get_str (.obj fs) "Model") (get_str (.obj fs) "MODEL")
              else model
            if serial ≠ "" then (serial, model')
            else device_attributes_scan rest model'
          else device_attributes_scan rest model
      | _ => device_attributes_scan rest model

mutual
/-- The nested _deep_regex_search: first regex-1 hit in any string of the
subtree, values in dict order. -/
def deep_regex_search : Json → Option String
  | .obj fs => deep_regex_fields fs
  | .arr es => deep_regex_elems es
  | .str s => regex1_search s
  | _ => none
def deep_regex_fields : JFields → Option String
  | .nil => none
  | .cons _ v rest =>
      match deep_regex_search v with
      | some r => some r
      | none => deep_regex_fields rest
def deep_regex_elems : JElems → Option String
  | .nil => none
  | .cons v rest =>
      match deep_regex_search v with
      | some r => some r
      | none => deep_regex_elems rest
end

/-- The structured strategies of raid_storcli._extract_serial_and_model,
in source order: direct SN/S\x2fN/Serial Number fields, the Inquiry block
(dict fields or the inquiry-string regex), then the "Device attributes"
sub-blocks. -/
def extract_structured (value : Json) : String × String :=
  let serial0 := py_or (py_or (get_str value "SN") (get_str value "S/N")) (get_str value "Serial Number")
  let model0 := py_or (get_str value "Model") (get_str value "MODEL")
  let inquiry := j_or (value.get "Inquiry Data") (value.get "Inquiry")
  let sm1 : String × String :=
    if serial0 = "" then
      match inquiry with
      | some (.obj fs) =>
          let s :=
            py_or (py_or (get_str (.obj fs) "SN") (get_str (.obj fs) "Serial Number"))
              (get_str (.obj fs) "SerialNumber")
          let m :=
            if model0 = "" then
              py_or (py_or (get_str (.obj fs) "Model") (get_str (.obj fs) "MODEL"))
                (get_str (.obj fs) "Model Number")
            else model0
          (s, m)
      | some (.str s) => ((regex2_search s).getD "", model0)
      | _ => (serial0, model0)
    else (serial0, model0)
  if sm1.1 = "" then
    match value with
    | .obj fs => device_attributes_scan fs sm1.2
    | _ => sm1
  else sm1

/-- raid_storcli._extract_serial_and_model.  use_regex records whether the
regex_fallback pattern was passed (it is in _collect_pd_details, it is not
in _get_pd_details); when it is absent the deep regex scan yields nothing. -/
def extract_serial_and_model (value : Json) (use_regex : Bool) : String × String :=
  let sm2 := extract_structured value
  if sm2.1 = "" then
    match (if use_regex then deep_regex_search value else none) with
    | some r => (r, sm2.2)
    | none => sm2
  else sm2

/-! ### raid_storcli.list_physical_drives -/

/-- A detail record for one (eid, slot), as harvested by
_collect_pd_details or _get_pd_details. -/
structure PDDetail where
  serial : String := ""
  model : String := ""
  os_path : String := ""
deriving Repr, DecidableEq

/-- The external observations one list_physical_drives call can make:
the bulk detail map built by _collect_pd_details, the per-slot
_get_pd_details fallback call, and the udevadm property query. -/
structure StorWorld where
  detail_map : List ((Option Int × Option Int) × PDDetail)
  get_pd_details : Option Int → Option Int → PDDetail
  udev : String → String × String

/-- raid_storcli._udev_serial_and_model: empty path short-circuits to
empty results without any external call. -/
def udev_serial_and_model (w : StorWorld) (device_path : String) : String × String :=
  if device_path = "" then ("", "") else w.udev device_path

/-- detail_map.get((eid, slot)) followed by the _get_pd_details fallback
when the lookup misses.  Stored detail dicts always carry at least one
non-empty field, so Python dict truthiness coincides with lookup success. -/
def pd_detail_for (w : StorWorld) (eid slot : Option Int) : PDDetail :=
  match w.detail_map.find? (fun kv => decide (kv.1 = (eid, slot))) with
  | some kv => kv.2
  | none => w.get_pd_details eid slot

/-- Python s.split(sep, 1) for a single colon: None when no colon occurs. -/
def split_first_colon : List Char → Option (List Char × List Char)
  | [] => none
  | c :: rest =>
      if c = ':' then some ([], rest)
      else
        match split_first_colon rest with
        | some (a, b) => some (c :: a, b)
        | none => none

/-- The EID:Slt split of list_physical_drives: when a colon is present,
split at the first colon and parse both halves with _safe_int. -/
def entry_eid_slot (eid_slt : String) : Option Int × Option Int :=
  match split_first_colon eid_slt.toList with
  | some (a, b) => (py_safe_int a.asString, py_safe_int b.asString)
  | none => (none, none)

/-- The detail record consulted for a summary entry: the detail-map lookup
for the parsed enclosure:slot, with the _get_pd_details fallback. -/
def entry_detail (w : StorWorld) (entry : Json) : PDDetail :=
  let es := entry_eid_slot (py_or (get_str entry "EID:Slt") (get_str entry "EID/Slt"))
  pd_detail_for w es.1 es.2

/-- The serial read directly off the summary listing entry:
entry.get("SN") or entry.get("S/N") or entry.get("Serial Number") or "". -/
def entry_summary_serial (entry : Json) : String :=
  py_or (py_or (get_str entry "SN") (get_str entry "S/N")) (get_str entry "Serial Number")

/-- The serial/model merge of list_physical_drives: the detail value
replaces the summary value when present, and udev fills whatever is still
missing.  The udev result is passed in evaluated; the source only issues
the udev call when something is missing, which is indistinguishable here
because the modelled udev world is a pure function. -/
def pd_identity (detail : PDDetail) (serial0 model0 : String) (udev_res : String × String) :
    String × String :=
  let serial1 := py_or detail.serial serial0
  let model1 := py_or detail.model model0
  if serial1 = "" ∨ model1 = "" then (py_or serial1 udev_res.1, py_or model1 udev_res.2)
  else (serial1, model1)

/-- The loop body of raid_storcli.list_physical_drives for one summary
entry: summary fields, detail overlay, os-path recovery, udev last resort,
and the UNKNOWN sentinels. -/
def pd_of_entry (w : StorWorld) (controller_id : Int) (entry : Json) : StorPD :=
  let eid_slt := py_or (get_str entry "EID:Slt") (get_str entry "EID/Slt")
  let es := entry_eid_slot eid_slt
  let detail := entry_detail w entry
  let os_path :=
    if detail.os_path ≠ "" then detail.os_path
    else extract_os_path entry (some controller_id) es.1 es.2
  let sm := pd_identity detail (entry_summary_serial entry) (get_str entry "Model")
    (udev_serial_and_model w os_path)
  { controller := controller_id
    eid_slt := eid_slt
    eid := es.1
    slot := es.2
    size := get_str entry "Size"
    intf := get_str entry "Intf"
    med := get_str entry "Med"
    model := if sm.2 = "" then "UNKNOWN" else sm.2
    serial := if sm.1 = "" then "UNKNOWN" else sm.1
    state := get_str entry "State"
    os_path := os_path }

/-- raid_storcli.list_physical_drives: unwrap Controllers[0].Response Data
.PD LIST (empty or non-list levels yield no drives, as the falsy-default
chains do) and build one record per entry. -/
def list_physical_drives (w : StorWorld) (controller_id : Int) (data : Json) : List StorPD :=
  match data.get "Controllers" with
  | some (.arr (.cons c0 _)) =>
      let resp0 :=
        match (if c0.truthy then c0 else Json.obj .nil).get "Response Data" with
        | some r => if r.truthy then r else Json.obj .nil
        | none => Json.obj .nil
      let pd_list :=
        match resp0.get "PD LIST" with
        | some (.arr es) => jelems_to_list es
        | _ => []
      pd_list.map (pd_of_entry w controller_id)
  | _ => []

/-! ### Spec-side definitions (written from the specification's words, for
refinement comparison against the source embeddings) -/

/-- The identity-resolution algorithm exactly as the specification words it,
parameterised by how the sentinel test reads: sentinel_ci = false compares
the serial literally against the sentinel "UNKNOWN" (the claim's literal
reading), sentinel_ci = true compares case-insensitively (as the source
does). -/
def match_spec_steps (sentinel_ci : Bool) (ti : Device) (devs : List Device) : Option String :=
  let serial := py_strip ti.serial
  let model := py_strip ti.model
  let size := py_strip ti.size
  let sentinel_hit : Bool :=
    if sentinel_ci then py_upper serial == "UNKNOWN" else serial == "UNKNOWN"
  let serial_matches :=
    if serial ≠ "" ∧ sentinel_hit = false then
      devs.filter (fun d => py_strip d.serial = serial)
    else []
  match serial_matches with
  | chosen0 :: rest =>
      match pick_largest_device (chosen0 :: rest) with
      | some chosen => path_or_device chosen
      | none => none
  | [] =>
      if model ≠ "" ∧ size ≠ "" then
        match pick_largest_device (devs.filter (fun d =>
            py_strip d.model = model ∧ py_strip d.size = size)) with
        | some chosen => path_or_device chosen
        | none => os_path_hint ti
      else os_path_hint ti

/-- The path a secure-erase/fio resolver call consults first:
dev.get("target") or dev.get("path") or dev.get("device") or "". -/
def consulted_path (dev : Device) : String :=
  py_or (py_or dev.target dev.path) dev.device

/-- The path the badblocks resolver consults:
dev.get("path") or dev.get("device") or "". -/
def consulted_path_no_target (dev : Device) : String :=
  py_or dev.path dev.device

def except_is_ok : Except String String → Bool
  | .ok _ => true
  | .error _ => false

/-- A summary entry carrying both an enclosure:slot and a declared serial. -/
def c7_entry : Json :=
  Json.obj (.cons "EID:Slt" (.str "8:2")
    (.cons "SN" (.str "AAAA1111")
      (.cons "Model" (.str "ST2000")
        (.cons "Size" (.str "1.8 TB") .nil))))

def c7_data : Json :=
  Json.obj (.cons "Controllers"
    (Json.arr (.cons
      (Json.obj (.cons "Response Data"
        (Json.obj (.cons "PD LIST" (Json.arr (.cons c7_entry .nil)) .nil)) .nil))
      .nil)) .nil)

/-- A world whose detail map carries a different serial for slot 8:2. -/
def c7_world : StorWorld :=
  ⟨[((some 8, some 2), { serial := "BBBB2222" })], fun _ _ => {}, fun _ => ("", "")⟩

/-- A world with no detail data and no udev answers at all. -/
def empty_stor_world : StorWorld := ⟨[], fun _ _ => {}, fun _ => ("", "")⟩

/-- A summary entry with no identity information whatsoever. -/
def c9_entry : Json :=
  Json.obj (.cons "EID:Slt" (.str "8:2") (.cons "Size" (.str "1.8 TB") .nil))

def c9_data : Json :=
  Json.obj (.cons "Controllers"
    (Json.arr (.cons
      (Json.obj (.cons "Response Data"
        (Json.obj (.cons "PD LIST" (Json.arr (.cons c9_entry .nil)) .nil)) .nil))
      .nil)) .nil)

/-! ## Supporting lemmas -/

theorem digits_to_nat_nonneg (ds : List Char) : (0 : Rat) ≤ (digits_to_nat ds : Rat) := by
  exact_mod_cast Nat.zero_le _

theorem parse_size_number_nonneg (cs : List Char) (v : Rat) (rest : List Char)
    (h : parse_size_number cs = some (v, rest)) : 0 ≤ v := by
  unfold parse_size_number at h
  dsimp only at h
  split at h
  · split at h
    · simp only [Option.some.injEq, Prod.mk.injEq] at h
      obtain ⟨rfl, -⟩ := h
      exact add_nonneg (digits_to_nat_nonneg _) (div_nonneg (digits_to_nat_nonneg _) (by positivity))
    · split at h
      · simp only [Option.some.injEq, Prod.mk.injEq] at h
        obtain ⟨rfl, -⟩ := h
        exact digits_to_nat_nonneg _
      · exact absurd h (by simp)
  · split at h
    · simp only [Option.some.injEq, Prod.mk.injEq] at h
      obtain ⟨rfl, -⟩ := h
      exact digits_to_nat_nonneg _
    · exact absurd h (by simp)

theorem size_to_bytes_nonneg (s : String) : 0 ≤ size_to_bytes s := by
  unfold size_to_bytes
  split
  · exact le_refl 0
  · split
    · exact le_refl 0
    · next v rest h =>
      have hv := parse_size_number_nonneg _ _ _ h
      have : (0 : Rat) ≤ _ := hv
      apply mul_nonneg hv
      exact_mod_cast Nat.zero_le _

theorem pick_step_running (a d : Device) :
    pick_step (some a, size_to_bytes a.size) d =
      if size_to_bytes d.size > size_to_bytes a.size then (some d, size_to_bytes d.size)
      else (some a, size_to_bytes a.size) := rfl

theorem pick_fold_eq_first_largest (ds : List Device) :
    ∀ a : Device, ds.foldl pick_step (some a, size_to_bytes a.size) =
      (some (first_largest_from a ds), size_to_bytes (first_largest_from a ds).size) := by
  induction ds with
  | nil => intro a; rfl
  | cons d ds ih =>
      intro a
      have hfc : first_largest_from a (d :: ds) =
          if size_to_bytes d.size > size_to_bytes a.size then first_largest_from d ds
          else first_largest_from a ds := rfl
      rw [List.foldl_cons, pick_step_running, hfc]
      by_cases h : size_to_bytes d.size > size_to_bytes a.size
      · rw [if_pos h, if_pos h, ih d]
      · rw [if_neg h, if_neg h, ih a]

theorem pick_largest_device_cons (a : Device) (ds : List Device) :
    pick_largest_device (a :: ds) = some (first_largest_from a ds) := by
  have hpos : size_to_bytes a.size > (-1 : Rat) :=
    lt_of_lt_of_le (by norm_num) (size_to_bytes_nonneg a.size)
  have hstep : pick_step (none, -1) a = (some a, size_to_bytes a.size) := by
    unfold pick_step
    dsimp only
    rw [if_pos hpos]
  unfold pick_largest_device
  rw [List.foldl_cons, hstep, pick_fold_eq_first_largest]

/-! ## Claims -/

/-- Unfolding of scan_megaraid_devices on a cons cell. -/
theorem scan_megaraid_devices_cons (c : Option Int × List StorPD)
    (cs : List (Option Int × List StorPD)) :
    scan_megaraid_devices (c :: cs) =
      (match c.1 with
       | none => []
       | some cid => c.2.map (mk_megaraid_device cid)) ++ scan_megaraid_devices cs := by
  obtain ⟨id?, pds⟩ := c
  cases id? with
  | none => rfl
  | some cid => rfl

/-- C2: every device built by the kernel block-device scan has
erase_allowed = false, for every possible input tree (hence every
mount/transport combination), and every device built by the controller scan
has erase_allowed = true and is_system = false. -/
theorem c2_scan_invariants :
    (∀ (blockdevices : List RawDev) (d : Device),
        d ∈ scan_linux_disks blockdevices → d.erase_allowed = false)
    ∧ (∀ (controllers : List (Option Int × List StorPD)) (d : Device),
        d ∈ scan_megaraid_devices controllers → d.erase_allowed = true ∧ d.is_system = false) := by
  constructor
  · intro bs d hd
    unfold scan_linux_disks at hd
    obtain ⟨raw, -, rfl⟩ := List.mem_map.mp hd
    rfl
  · intro cs
    induction cs with
    | nil => intro d hd; cases hd
    | cons c cs ih =>
        intro d hd
        rw [scan_megaraid_devices_cons] at hd
        rcases List.mem_append.mp hd with hl | hr
        · obtain ⟨id?, pds⟩ := c
          cases id? with
          | none => cases hl
          | some cid =>
              obtain ⟨pd, -, rfl⟩ := List.mem_map.mp hl
              exact ⟨rfl, rfl⟩
        · exact ih d hr

/-- C2 witness: the theorem applied to a one-disk kernel scan and a
one-drive controller scan. -/
theorem c2_scan_invariants_witness :
    (mk_linux_device (.mk "sda" "/dev/sda" "disk" "1G" "M" "S" "sata" "" "0" false ["/"] .nil)
        ∈ scan_linux_disks [.mk "sda" "/dev/sda" "disk" "1G" "M" "S" "sata" "" "0" false ["/"] .nil])
    ∧ (mk_linux_device (.mk "sda" "/dev/sda" "disk" "1G" "M" "S" "sata" "" "0" false ["/"] .nil)).erase_allowed = false
    ∧ (mk_megaraid_device 0 { eid_slt := "8:2" } ∈ scan_megaraid_devices [(some 0, [{ eid_slt := "8:2" }])])
    ∧ (mk_megaraid_device 0 { eid_slt := "8:2" }).erase_allowed = true
    ∧ (mk_megaraid_device 0 { eid_slt := "8:2" }).is_system = false := by
  have h1 : mk_linux_device (.mk "sda" "/dev/sda" "disk" "1G" "M" "S" "sata" "" "0" false ["/"] .nil)
      ∈ scan_linux_disks [.mk "sda" "/dev/sda" "disk" "1G" "M" "S" "sata" "" "0" false ["/"] .nil] := by
    decide
  have h2 : mk_megaraid_device 0 { eid_slt := "8:2" }
      ∈ scan_megaraid_devices [(some 0, [({ eid_slt := "8:2" } : StorPD)])] := by
    decide
  have hm := c2_scan_invariants.2 [(some 0, [({ eid_slt := "8:2" } : StorPD)])]
    (mk_megaraid_device 0 { eid_slt := "8:2" }) h2
  exact ⟨h1,
    c2_scan_invariants.1 [.mk "sda" "/dev/sda" "disk" "1G" "M" "S" "sata" "" "0" false ["/"] .nil]
      (mk_linux_device (.mk "sda" "/dev/sda" "disk" "1G" "M" "S" "sata" "" "0" false ["/"] .nil)) h1,
    h2, hm.1, hm.2⟩

/-- C10: the largest-size selection of the resolver: an empty candidate
list yields None; a non-empty list yields the first element attaining the
maximum parsed size (strict greater-than, so kernel-list order breaks
ties); size strings parse with decimal multipliers K/M/G/T, case
insensitively, with unparseable sizes counting as 0. -/
theorem c10_tie_break_detail :
    pick_largest_device [] = none
    ∧ (∀ (a : Device) (ds : List Device),
        pick_largest_device (a :: ds) = some (first_largest_from a ds))
    ∧ size_to_bytes "2K" = 2000
    ∧ size_to_bytes "2k" = 2000
    ∧ size_to_bytes "3M" = 3000000
    ∧ size_to_bytes "4g" = 4000000000
    ∧ size_to_bytes "1.8T" = 1800000000000
    ∧ size_to_bytes "1.8 TB" = 1800000000000
    ∧ size_to_bytes "garbage" = 0
    ∧ pick_largest_device
        [{ path := "/dev/sda", size := "1G" }, { path := "/dev/sdb", size := "1G" }]
        = some { path := "/dev/sda", size := "1G" } := by
  refine ⟨rfl, pick_largest_device_cons, ?_, ?_, ?_, ?_, ?_, ?_, ?_, ?_⟩
  · show ((2 : Nat) : Rat) * ((1000 : Nat) : Rat) = 2000
    norm_num
  · show ((2 : Nat) : Rat) * ((1000 : Nat) : Rat) = 2000
    norm_num
  · show ((3 : Nat) : Rat) * ((1000000 : Nat) : Rat) = 3000000
    norm_num
  · show ((4 : Nat) : Rat) * ((1000000000 : Nat) : Rat) = 4000000000
    norm_num
  · show (((1 : Nat) : Rat) + ((8 : Nat) : Rat) / (10 : Rat) ^ (1 : Nat))
        * ((1000000000000 : Nat) : Rat) = 1800000000000
    norm_num
  · show (((1 : Nat) : Rat) + ((8 : Nat) : Rat) / (10 : Rat) ^ (1 : Nat))
        * ((1000000000000 : Nat) : Rat) = 1800000000000
    norm_num
  · rfl
  · rw [pick_largest_device_cons]
    show some (first_largest_from { path := "/dev/sda", size := "1G" }
      [{ path := "/dev/sdb", size := "1G" }]) = _
    unfold first_largest_from
    rw [if_neg (lt_irrefl _)]
    rfl

/-- C8: the identity resolver is deterministic: two invocations on equal
inputs return equal results. -/
theorem c8_resolution_deterministic (ti : Device) (devs devs' : List Device)
    (h : devs = devs') :
    match_linux_device ti devs = match_linux_device ti devs' := by
  rw [h]

/-- C8 witness: the determinism theorem applied at a concrete snapshot. -/
theorem c8_resolution_deterministic_witness :
    ([({ path := "/dev/sda", serial := "S1", size := "1G" } : Device)]
        = [({ path := "/dev/sda", serial := "S1", size := "1G" } : Device)])
    ∧ match_linux_device { serial := "S1" }
        [{ path := "/dev/sda", serial := "S1", size := "1G" }]
      = match_linux_device { serial := "S1" }
        [{ path := "/dev/sda", serial := "S1", size := "1G" }] :=
  ⟨rfl, c8_resolution_deterministic { serial := "S1" } _ _ rfl⟩

/-- Prefixes compose: if p is a prefix of s and q a prefix of p then q is a
prefix of s. -/
theorem py_startswith_trans {s p q : String} (h1 : py_startswith s p = true)
    (h2 : py_startswith p q = true) : py_startswith s q = true := by
  unfold py_startswith at h1 h2 ⊢
  rw [List.isPrefixOf_iff_prefix] at h1 h2 ⊢
  exact h2.trans h1

/-- The protected-mountpoint test collapses: because the protected set
contains "/" and its rstrip("/") + "/" prefix is "/" itself, a mountpoint
is protected exactly when it begins with "/". -/
theorem is_system_mountpoint_eq_any_slash (mountpoints : List String) :
    is_system_mountpoint mountpoints
      = mountpoints.any (fun mp => py_startswith mp "/") := by
  unfold is_system_mountpoint
  induction mountpoints with
  | nil => rfl
  | cons mp rest ih =>
      rw [List.any_cons, List.any_cons, ih]
      congr 1
      show (SYSTEM_MOUNTPOINTS.any fun system_mp =>
        decide (mp = system_mp) || py_startswith mp (rstrip_slash system_mp ++ "/"))
          = py_startswith mp "/"
      cases hp : py_startswith mp "/" with
      | true =>
          have hroot : py_startswith mp (rstrip_slash "/" ++ "/") = true := by
            have : rstrip_slash "/" ++ "/" = "/" := by decide
            rw [this]; exact hp
          simp [SYSTEM_MOUNTPOINTS, hroot]
      | false =>
          have hne : ∀ smp : String, py_startswith smp "/" = true → decide (mp = smp) = false := by
            intro smp hsw
            rcases Decidable.em (mp = smp) with h | h
            · subst h; rw [hp] at hsw; cases hsw
            · exact decide_eq_false h
          have hnp : ∀ pre : String, py_startswith pre "/" = true →
              py_startswith mp pre = false := by
            intro pre hpre
            cases hmp : py_startswith mp pre with
            | true => rw [py_startswith_trans hmp hpre] at hp; cases hp
            | false => rfl
          simp only [SYSTEM_MOUNTPOINTS, List.any_cons, List.any_nil, Bool.or_false]
          rw [hne "/" (by decide), hne "/boot" (by decide), hne "/boot/efi" (by decide),
            hne "/usr" (by decide), hne "/var" (by decide), hne "/home" (by decide),
            hnp (rstrip_slash "/" ++ "/") (by decide),
            hnp (rstrip_slash "/boot" ++ "/") (by decide),
            hnp (rstrip_slash "/boot/efi" ++ "/") (by decide),
            hnp (rstrip_slash "/usr" ++ "/") (by decide),
            hnp (rstrip_slash "/var" ++ "/") (by decide),
            hnp (rstrip_slash "/home" ++ "/") (by decide)]
          rfl

/-- C5 counterexample: the mountpoint /mnt/data is outside the fixed
protected set, yet the classifier marks it protected, and a USB-attached
removable hot-plug disk mounted only at /mnt/data is classified
is_system = true by the scan. -/
theorem c5_counterexample :
    is_system_mountpoint ["/mnt/data"] = true
    ∧ "/mnt/data" ∉ SYSTEM_MOUNTPOINTS
    ∧ (scan_linux_disks
        [.mk "sdb" "/dev/sdb" "disk" "32G" "Stick" "U1" "usb" "" "1" true ["/mnt/data"] .nil]).map
        (fun d => d.is_system) = [true] := by
  refine ⟨by decide, by decide, by decide⟩

/-- C5 amended: a mountpoint counts as protected exactly when it begins
with "/" — equality with a protected mountpoint or residence under
/boot, /boot/efi, /usr, /var or /home are special cases of the rule for
"/", whose stripped-prefix test degenerates to the prefix "/".  Only
non-absolute mountpoints (lsblk placeholders such as [SWAP]) escape. -/
theorem c5_amended_protected_iff_absolute :
    (∀ mountpoints : List String,
        is_system_mountpoint mountpoints
          = mountpoints.any (fun mp => py_startswith mp "/"))
    ∧ is_system_mountpoint ["[SWAP]"] = false :=
  ⟨is_system_mountpoint_eq_any_slash, by decide⟩

/-- The classification computed by mk_linux_device, exposed. -/
theorem mk_linux_device_is_system (raw : RawDev) :
    (mk_linux_device raw).is_system
      = (if raw_transport raw = "sata" || raw_transport raw = "ata" then true
         else if is_internal_mainboard_disk raw (raw_transport raw) then true
         else is_system_mountpoint ((collect_mountpoints raw).eraseDups)) := rfl

theorem mk_linux_device_transport (raw : RawDev) :
    (mk_linux_device raw).transport = raw_transport raw := rfl

/-- C6 counterexample: a non-removable, non-hot-plug, non-USB kernel disk
with transport "sas" and no mountpoints is not forced is_system = true by
the scan, contradicting the claim's transport-independent forcing. -/
theorem c6_counterexample :
    (scan_linux_disks [.mk "sda" "/dev/sda" "disk" "1.8T" "HGST" "X1" "sas" "" "0" false [] .nil]).map
        (fun d => (d.transport, d.is_system)) = [("sas", false)]
    ∧ py_strip (RawDev.rm (.mk "sda" "/dev/sda" "disk" "1.8T" "HGST" "X1" "sas" "" "0" false [] .nil)) = "0"
    ∧ RawDev.hotplug (.mk "sda" "/dev/sda" "disk" "1.8T" "HGST" "X1" "sas" "" "0" false [] .nil) = false := by
  refine ⟨by decide, by decide, by decide⟩

/-- C6 amended: SATA/ATA transports force is_system = true unconditionally;
the non-removable/non-hot-plug/non-USB forcing additionally requires the
transport to be sata, ata or nvme (the _is_internal_mainboard_disk guard),
so it does not extend to other transports such as SAS. -/
theorem c6_amended_system_forcing :
    (∀ (blockdevices : List RawDev) (d : Device),
        d ∈ scan_linux_disks blockdevices →
        (d.transport = "sata" ∨ d.transport = "ata") → d.is_system = true)
    ∧ (∀ raw : RawDev,
        (raw_transport raw = "sata" ∨ raw_transport raw = "ata" ∨ raw_transport raw = "nvme") →
        py_strip raw.rm = "0" → raw.hotplug = false →
        (mk_linux_device raw).is_system = true) := by
  constructor
  · intro bs d hd htr
    unfold scan_linux_disks at hd
    obtain ⟨raw, -, rfl⟩ := List.mem_map.mp hd
    rw [mk_linux_device_transport] at htr
    rw [mk_linux_device_is_system]
    have : (raw_transport raw = "sata" || raw_transport raw = "ata") = true := by
      rcases htr with h | h <;> simp [h]
    rw [this, if_pos rfl]
  · intro raw htr hrm hhp
    rw [mk_linux_device_is_system]
    rcases htr with h | h | h
    · rw [h]; rfl
    · rw [h]; rfl
    · have hcond : (raw_transport raw = "sata" || raw_transport raw = "ata") = false := by
        rw [h]; rfl
      rw [hcond]
      have hint : is_internal_mainboard_disk raw (raw_transport raw) = true := by
        unfold is_internal_mainboard_disk
        rw [h, hrm, hhp]
        rfl
      rw [if_neg (by simp), hint, if_pos rfl]

/-- C6 amended witness: the forcing theorem applied to a mounted SATA disk
and to an unmounted non-removable NVMe disk. -/
theorem c6_amended_system_forcing_witness :
    (mk_linux_device (.mk "sda" "/dev/sda" "disk" "1G" "M" "S" "sata" "" "0" false [] .nil)
        ∈ scan_linux_disks [.mk "sda" "/dev/sda" "disk" "1G" "M" "S" "sata" "" "0" false [] .nil])
    ∧ ((mk_linux_device (.mk "sda" "/dev/sda" "disk" "1G" "M" "S" "sata" "" "0" false [] .nil)).transport = "sata"
        ∨ (mk_linux_device (.mk "sda" "/dev/sda" "disk" "1G" "M" "S" "sata" "" "0" false [] .nil)).transport = "ata")
    ∧ (mk_linux_device (.mk "sda" "/dev/sda" "disk" "1G" "M" "S" "sata" "" "0" false [] .nil)).is_system = true
    ∧ (raw_transport (.mk "n1" "/dev/nvme0n1" "disk" "1T" "M" "S" "nvme" "" "0" false [] .nil) = "nvme"
        ∧ py_strip (RawDev.rm (.mk "n1" "/dev/nvme0n1" "disk" "1T" "M" "S" "nvme" "" "0" false [] .nil)) = "0"
        ∧ RawDev.hotplug (.mk "n1" "/dev/nvme0n1" "disk" "1T" "M" "S" "nvme" "" "0" false [] .nil) = false)
    ∧ (mk_linux_device (.mk "n1" "/dev/nvme0n1" "disk" "1T" "M" "S" "nvme" "" "0" false [] .nil)).is_system = true := by
  have h1 : mk_linux_device (.mk "sda" "/dev/sda" "disk" "1G" "M" "S" "sata" "" "0" false [] .nil)
      ∈ scan_linux_disks [.mk "sda" "/dev/sda" "disk" "1G" "M" "S" "sata" "" "0" false [] .nil] := by
    decide
  have h2 : (mk_linux_device (.mk "sda" "/dev/sda" "disk" "1G" "M" "S" "sata" "" "0" false [] .nil)).transport
      = "sata" := by decide
  refine ⟨h1, Or.inl h2, ?_, ⟨by decide, by decide, by decide⟩, ?_⟩
  · exact c6_amended_system_forcing.1
      [.mk "sda" "/dev/sda" "disk" "1G" "M" "S" "sata" "" "0" false [] .nil]
      (mk_linux_device (.mk "sda" "/dev/sda" "disk" "1G" "M" "S" "sata" "" "0" false [] .nil))
      h1 (Or.inl h2)
  · exact c6_amended_system_forcing.2
      (.mk "n1" "/dev/nvme0n1" "disk" "1T" "M" "S" "nvme" "" "0" false [] .nil)
      (Or.inr (Or.inr (by decide))) (by decide) (by decide)

/-- C4 counterexample: a drive whose serial reads "unknown" (lower case) is
not the sentinel "UNKNOWN", so the claim's algorithm filters by serial and
resolves; the source compares the sentinel case-insensitively and skips the
serial step, resolving to nothing. -/
theorem c4_counterexample :
    match_linux_device { serial := "unknown" }
        [{ path := "/dev/sda", serial := "unknown", size := "1G" }] = none
    ∧ match_spec_steps false { serial := "unknown" }
        [{ path := "/dev/sda", serial := "unknown", size := "1G" }] = some "/dev/sda" := by
  constructor
  · rfl
  · show (match pick_largest_device [({ path := "/dev/sda", serial := "unknown", size := "1G" } : Device)] with
      | some chosen => path_or_device chosen
      | none => none) = some "/dev/sda"
    rw [show pick_largest_device [({ path := "/dev/sda", serial := "unknown", size := "1G" } : Device)]
        = some { path := "/dev/sda", serial := "unknown", size := "1G" }
      from pick_largest_device_cons _ []]
    rfl

/-- C4 amended: the resolver follows the claimed deterministic algorithm
with one refinement: the step-1 guard compares the serial to the sentinel
case-insensitively (serial.upper() must differ from "UNKNOWN").  With that
guard the source resolver coincides with the spec-side algorithm on all
inputs; in particular two devices of serial "SN123" and sizes 1000000000
and 2000000000 bytes resolve to the larger one. -/
theorem c4_amended_resolver_algorithm :
    (∀ (ti : Device) (devs : List Device),
        match_linux_device ti devs = match_spec_steps true ti devs)
    ∧ match_linux_device { serial := "SN123" }
        [{ path := "/dev/sda", serial := "SN123", size := "1000000000" },
         { path := "/dev/sdb", serial := "SN123", size := "2000000000" }] = some "/dev/sdb" := by
  constructor
  · intro ti devs
    unfold match_linux_device match_spec_steps
    by_cases h1 : py_strip ti.serial = "" <;>
      by_cases h2 : py_upper (py_strip ti.serial) = "UNKNOWN" <;>
        simp [h1, h2]
  · have e1 : size_to_bytes "1000000000" = 1000000000 := by
      show ((1000000000 : Nat) : Rat) * ((1 : Nat) : Rat) = 1000000000
      norm_num
    have e2 : size_to_bytes "2000000000" = 2000000000 := by
      show ((2000000000 : Nat) : Rat) * ((1 : Nat) : Rat) = 2000000000
      norm_num
    have hgt : size_to_bytes "2000000000" > size_to_bytes "1000000000" := by
      rw [e1, e2]; norm_num
    show (match pick_largest_device
        [({ path := "/dev/sda", serial := "SN123", size := "1000000000" } : Device),
         { path := "/dev/sdb", serial := "SN123", size := "2000000000" }] with
      | some chosen => path_or_device chosen
      | none => none) = some "/dev/sdb"
    rw [pick_largest_device_cons]
    have hfl : first_largest_from
        ({ path := "/dev/sda", serial := "SN123", size := "1000000000" } : Device)
        [{ path := "/dev/sdb", serial := "SN123", size := "2000000000" }]
        = { path := "/dev/sdb", serial := "SN123", size := "2000000000" } := by
      show (if size_to_bytes "2000000000" > size_to_bytes "1000000000"
        then first_largest_from { path := "/dev/sdb", serial := "SN123", size := "2000000000" } []
        else first_largest_from { path := "/dev/sda", serial := "SN123", size := "1000000000" } []) = _
      rw [if_pos hgt]
      rfl
    rw [hfl]
    rfl

/-- C1 counterexample: a controller-attached device record (virtual
/dev/megaraid path) whose cached target field was forged to /dev/sdz is
resolved by the secure-erase and fio resolvers to /dev/sdz — the cached
value, absent from the fresh kernel inventory — instead of failing; a
fresh resolution of the same record would have produced /dev/sdc. -/
theorem c1_counterexample :
    resolve_erase_target
        ⟨[{ path := "/dev/megaraid/0/8:2", serial := "Z1234ABCD", size := "1.8 TB" }],
         [{ path := "/dev/sdc", serial := "Z1234ABCD", size := "1.8 TB" }]⟩
        { target := "/dev/sdz", path := "/dev/megaraid/0/8:2", serial := "Z1234ABCD", size := "1.8 TB" }
      = .ok "/dev/sdz"
    ∧ fio_resolve_target
        ⟨[{ path := "/dev/megaraid/0/8:2", serial := "Z1234ABCD", size := "1.8 TB" }],
         [{ path := "/dev/sdc", serial := "Z1234ABCD", size := "1.8 TB" }]⟩
        { target := "/dev/sdz", path := "/dev/megaraid/0/8:2", serial := "Z1234ABCD", size := "1.8 TB" }
      = .ok "/dev/sdz"
    ∧ ([({ path := "/dev/sdc", serial := "Z1234ABCD", size := "1.8 TB" } : Device)].all
        fun d => d.path ≠ "/dev/sdz") = true
    ∧ py_startswith "/dev/megaraid/0/8:2" "/dev/megaraid/" = true
    ∧ resolve_megaraid_target
        ⟨[{ path := "/dev/megaraid/0/8:2", serial := "Z1234ABCD", size := "1.8 TB" }],
         [{ path := "/dev/sdc", serial := "Z1234ABCD", size := "1.8 TB" }]⟩
        { target := "/dev/sdz", path := "/dev/megaraid/0/8:2", serial := "Z1234ABCD", size := "1.8 TB" }
      = some "/dev/sdc" := by
  refine ⟨rfl, rfl, by decide, by decide, ?_⟩
  show (match pick_largest_device [({ path := "/dev/sdc", serial := "Z1234ABCD", size := "1.8 TB" } : Device)] with
    | some chosen => path_or_device chosen
    | none => none) = some "/dev/sdc"
  rw [show pick_largest_device [({ path := "/dev/sdc", serial := "Z1234ABCD", size := "1.8 TB" } : Device)]
      = some { path := "/dev/sdc", serial := "Z1234ABCD", size := "1.8 TB" }
    from pick_largest_device_cons _ []]
  rfl

/-- C1 amended: the fresh-resolution guarantee holds exactly for calls whose
consulted path (target, then path, then device) is still the controller
virtual path: then the secure-erase resolver re-derives the target through
resolve_megaraid_target against the fresh snapshots and only returns
kernel-shaped paths, failing otherwise.  A cached target field of kernel
shape, however, bypasses re-resolution and is returned as-is. -/
theorem c1_amended_fresh_resolution (w : ScanWorld) (dev : Device) (p : String)
    (hm : py_startswith (consulted_path dev) "/dev/megaraid/" = true)
    (hr : resolve_erase_target w dev = .ok p) :
    (py_startswith p "/dev/sd" || py_startswith p "/dev/nvme") = true
    ∧ resolve_megaraid_target w dev = some p := by
  unfold consulted_path at hm
  unfold resolve_erase_target at hr
  rw [if_pos hm] at hr
  cases hres : resolve_megaraid_target w dev with
  | none => rw [hres] at hr; cases hr
  | some r =>
      rw [hres] at hr
      dsimp only at hr
      by_cases hs : (py_startswith r "/dev/sd" || py_startswith r "/dev/nvme") = true
      · rw [if_pos hs] at hr
        cases hr
        exact ⟨hs, rfl⟩
      · rw [if_neg hs] at hr
        cases hr

/-- C1 amended witness: a healthy controller record (no cached target)
resolved freshly to /dev/sdc through the snapshot world. -/
theorem c1_amended_fresh_resolution_witness :
    py_startswith (consulted_path { path := "/dev/megaraid/0/8:2", serial := "Z9" }) "/dev/megaraid/" = true
    ∧ resolve_erase_target
        ⟨[{ path := "/dev/megaraid/0/8:2", serial := "Z9" }],
         [{ path := "/dev/sdc", serial := "Z9", size := "1T" }]⟩
        { path := "/dev/megaraid/0/8:2", serial := "Z9" } = .ok "/dev/sdc"
    ∧ (py_startswith "/dev/sdc" "/dev/sd" || py_startswith "/dev/sdc" "/dev/nvme") = true
    ∧ resolve_megaraid_target
        ⟨[{ path := "/dev/megaraid/0/8:2", serial := "Z9" }],
         [{ path := "/dev/sdc", serial := "Z9", size := "1T" }]⟩
        { path := "/dev/megaraid/0/8:2", serial := "Z9" } = some "/dev/sdc" := by
  have hrm : resolve_megaraid_target
      ⟨[{ path := "/dev/megaraid/0/8:2", serial := "Z9" }],
       [{ path := "/dev/sdc", serial := "Z9", size := "1T" }]⟩
      { path := "/dev/megaraid/0/8:2", serial := "Z9" } = some "/dev/sdc" := by
    show (match pick_largest_device [({ path := "/dev/sdc", serial := "Z9", size := "1T" } : Device)] with
      | some chosen => path_or_device chosen
      | none => none) = some "/dev/sdc"
    rw [show pick_largest_device [({ path := "/dev/sdc", serial := "Z9", size := "1T" } : Device)]
        = some { path := "/dev/sdc", serial := "Z9", size := "1T" }
      from pick_largest_device_cons _ []]
    rfl
  have hr : resolve_erase_target
      ⟨[{ path := "/dev/megaraid/0/8:2", serial := "Z9" }],
       [{ path := "/dev/sdc", serial := "Z9", size := "1T" }]⟩
      { path := "/dev/megaraid/0/8:2", serial := "Z9" } = .ok "/dev/sdc" := by
    show (match resolve_megaraid_target
        ⟨[{ path := "/dev/megaraid/0/8:2", serial := "Z9" }],
         [{ path := "/dev/sdc", serial := "Z9", size := "1T" }]⟩
        { path := "/dev/megaraid/0/8:2", serial := "Z9" } with
      | some resolved =>
          if py_startswith resolved "/dev/sd" || py_startswith resolved "/dev/nvme" then
            Except.ok resolved
          else Except.error "ERROR: MegaRAID-Geraete koennen nicht direkt geloescht werden."
      | none => Except.error "ERROR: MegaRAID-Geraete koennen nicht direkt geloescht werden.")
      = Except.ok "/dev/sdc"
    rw [hrm]
    rfl
  have h := c1_amended_fresh_resolution
    ⟨[{ path := "/dev/megaraid/0/8:2", serial := "Z9" }],
     [{ path := "/dev/sdc", serial := "Z9", size := "1T" }]⟩
    { path := "/dev/megaraid/0/8:2", serial := "Z9" } "/dev/sdc" (by decide) hr
  exact ⟨by decide, hr, h.1, h.2⟩

/-- C3 counterexample: the badblocks resolver returns a kernel path that
starts with neither /dev/sd nor /dev/nvme (an eMMC disk) instead of
failing. -/
theorem c3_counterexample :
    badblocks_resolve_target ⟨[], []⟩ { path := "/dev/mmcblk0" } = .ok "/dev/mmcblk0"
    ∧ py_startswith "/dev/mmcblk0" "/dev/sd" = false
    ∧ py_startswith "/dev/mmcblk0" "/dev/nvme" = false :=
  ⟨rfl, by decide, by decide⟩

/-- C3 amended: for non-megaraid (kernel-addressed) paths, the secure-erase
resolver (also used by nwipe) and the fio resolver return the path exactly
when it starts with /dev/sd or /dev/nvme and fail otherwise; the badblocks
resolver returns any non-empty path with no shape check. -/
theorem c3_amended_prefix_enforcement (w : ScanWorld) (dev : Device)
    (hnm : py_startswith (consulted_path dev) "/dev/megaraid/" = false)
    (hnm2 : py_startswith (consulted_path_no_target dev) "/dev/megaraid/" = false) :
    ((py_startswith (consulted_path dev) "/dev/sd"
        || py_startswith (consulted_path dev) "/dev/nvme") = true →
      resolve_erase_target w dev = .ok (consulted_path dev)
      ∧ fio_resolve_target w dev = .ok (consulted_path dev))
    ∧ ((py_startswith (consulted_path dev) "/dev/sd"
        || py_startswith (consulted_path dev) "/dev/nvme") = false →
      except_is_ok (resolve_erase_target w dev) = false
      ∧ except_is_ok (fio_resolve_target w dev) = false)
    ∧ (consulted_path_no_target dev ≠ "" →
      badblocks_resolve_target w dev = .ok (consulted_path_no_target dev)) := by
  unfold consulted_path at *
  unfold consulted_path_no_target at *
  refine ⟨?_, ?_, ?_⟩
  · intro hshape
    constructor
    · unfold resolve_erase_target
      rw [if_neg (by rw [hnm]; exact fun h => nomatch h), if_pos hshape]
    · unfold fio_resolve_target
      have hne : ¬ (py_or (py_or dev.target dev.path) dev.device = "") := by
        intro h0
        rw [h0] at hshape
        cases hshape
      rw [if_neg hne, if_neg (by rw [hnm]; exact fun h => nomatch h), if_pos hshape]
  · intro hshape
    constructor
    · unfold resolve_erase_target
      rw [if_neg (by rw [hnm]; exact fun h => nomatch h), if_neg (by rw [hshape]; exact fun h => nomatch h)]
      rfl
    · unfold fio_resolve_target
      by_cases h0 : py_or (py_or dev.target dev.path) dev.device = ""
      · rw [if_pos h0]
        rfl
      · rw [if_neg h0, if_neg (by rw [hnm]; exact fun h => nomatch h),
          if_neg (by rw [hshape]; exact fun h => nomatch h)]
        rfl
  · intro hne
    unfold badblocks_resolve_target
    rw [if_neg (by rw [hnm2]; exact fun h => nomatch h), if_pos hne]

/-- C3 amended witness: concrete kernel paths exercising all three
branches: /dev/sda accepted by the shape-checking resolvers, /dev/mmcblk0
rejected by them, and /dev/mmcblk0 accepted by badblocks. -/
theorem c3_amended_prefix_enforcement_witness :
    py_startswith (consulted_path { path := "/dev/sda" }) "/dev/megaraid/" = false
    ∧ resolve_erase_target ⟨[], []⟩ { path := "/dev/sda" } = .ok (consulted_path { path := "/dev/sda" })
    ∧ fio_resolve_target ⟨[], []⟩ { path := "/dev/sda" } = .ok (consulted_path { path := "/dev/sda" })
    ∧ except_is_ok (resolve_erase_target ⟨[], []⟩ { path := "/dev/mmcblk0" }) = false
    ∧ except_is_ok (fio_resolve_target ⟨[], []⟩ { path := "/dev/mmcblk0" }) = false
    ∧ badblocks_resolve_target ⟨[], []⟩ { path := "/dev/mmcblk0" }
        = .ok (consulted_path_no_target { path := "/dev/mmcblk0" }) := by
  have h1 := c3_amended_prefix_enforcement ⟨[], []⟩ { path := "/dev/sda" } (by decide) (by decide)
  have h2 := c3_amended_prefix_enforcement ⟨[], []⟩ { path := "/dev/mmcblk0" } (by decide) (by decide)
  have ha := h1.1 (by decide)
  have hb := h2.2.1 (by decide)
  have hc := h2.2.2 (by decide)
  exact ⟨by decide, ha.1, ha.2, hb.1, hb.2, hc⟩

/-- Both identity fields of every built physical-drive record are
non-empty. -/
theorem unknown_default_nonempty (s : String) : (if s = "" then "UNKNOWN" else s) ≠ "" := by
  by_cases h : s = ""
  · rw [if_pos h]; decide
  · rw [if_neg h]; exact h

theorem pd_of_entry_nonempty (w : StorWorld) (cid : Int) (entry : Json) :
    (pd_of_entry w cid entry).serial ≠ "" ∧ (pd_of_entry w cid entry).model ≠ "" := by
  unfold pd_of_entry
  dsimp only
  exact ⟨unknown_default_nonempty _, unknown_default_nonempty _⟩

/-- C9: every record of list_physical_drives carries non-empty serial and
model strings, and a drive with no recoverable identity gets the sentinel
"UNKNOWN" in both fields, never the empty string. -/
theorem c9_identity_sentinels :
    (∀ (w : StorWorld) (cid : Int) (data : Json) (pd : StorPD),
        pd ∈ list_physical_drives w cid data → pd.serial ≠ "" ∧ pd.model ≠ "")
    ∧ (list_physical_drives empty_stor_world 0 c9_data).map (fun p => (p.serial, p.model))
        = [("UNKNOWN", "UNKNOWN")] := by
  constructor
  · intro w cid data pd hpd
    unfold list_physical_drives at hpd
    revert hpd
    cases data.get "Controllers" with
    | none => intro hpd; exact absurd hpd (List.not_mem_nil _)
    | some j =>
        cases j with
        | arr es =>
            cases es with
            | nil => intro hpd; exact absurd hpd (List.not_mem_nil _)
            | cons c0 rest =>
                intro hpd
                obtain ⟨entry, -, rfl⟩ := List.mem_map.mp hpd
                exact pd_of_entry_nonempty _ _ _
        | str s => intro hpd; exact absurd hpd (List.not_mem_nil _)
        | num n => intro hpd; exact absurd hpd (List.not_mem_nil _)
        | bool b => intro hpd; exact absurd hpd (List.not_mem_nil _)
        | null => intro hpd; exact absurd hpd (List.not_mem_nil _)
        | obj fs => intro hpd; exact absurd hpd (List.not_mem_nil _)
  · decide

/-- C9 witness: the non-emptiness theorem applied to the drive record of an
identity-less entry. -/
theorem c9_identity_sentinels_witness :
    (pd_of_entry empty_stor_world 0 c9_entry ∈ list_physical_drives empty_stor_world 0 c9_data)
    ∧ (pd_of_entry empty_stor_world 0 c9_entry).serial ≠ ""
    ∧ (pd_of_entry empty_stor_world 0 c9_entry).model ≠ "" := by
  have h1 : pd_of_entry empty_stor_world 0 c9_entry
      ∈ list_physical_drives empty_stor_world 0 c9_data := by decide
  have h2 := c9_identity_sentinels.1 empty_stor_world 0 c9_data
    (pd_of_entry empty_stor_world 0 c9_entry) h1
  exact ⟨h1, h2.1, h2.2⟩

/-- C7 counterexample: the summary listing entry declares SN "AAAA1111",
but the record built for it carries the detail-map serial "BBBB2222": the
detail value replaces the summary value instead of the summary field
winning first. -/
theorem c7_counterexample :
    (list_physical_drives c7_world 0 c7_data).map (fun p => p.serial) = ["BBBB2222"]
    ∧ get_str c7_entry "SN" = "AAAA1111"
    ∧ (entry_detail c7_world c7_entry).serial = "BBBB2222" := by
  refine ⟨by decide, by decide, by decide⟩

/-- A non-empty detail serial is final: neither the summary value, nor the
udev value, nor the sentinel can replace it. -/
theorem pd_identity_detail_first (detail : PDDetail) (s0 m0 : String) (u : String × String)
    (hd : detail.serial ≠ "") : (pd_identity detail s0 m0 u).1 = detail.serial := by
  unfold pd_identity py_or
  dsimp only
  rw [if_neg hd]
  by_cases hm : (if detail.model = "" then m0 else detail.model) = ""
  · rw [if_pos (Or.inr hm)]
    dsimp only
    rw [if_neg hd]
  · rw [if_neg (fun hor => hor.elim hd hm)]

/-- With an empty detail serial, the summary serial is final. -/
theorem pd_identity_summary_second (detail : PDDetail) (s0 m0 : String) (u : String × String)
    (hd : detail.serial = "") (hs : s0 ≠ "") : (pd_identity detail s0 m0 u).1 = s0 := by
  unfold pd_identity py_or
  dsimp only
  rw [if_pos hd]
  by_cases hm : (if detail.model = "" then m0 else detail.model) = ""
  · rw [if_pos (Or.inr hm)]
    dsimp only
    rw [if_neg hs]
  · rw [if_neg (fun hor => hor.elim hs hm)]

/-- The serial field of a built record is the merged serial, defaulted to
the sentinel. -/
theorem pd_of_entry_serial (w : StorWorld) (cid : Int) (entry : Json) :
    (pd_of_entry w cid entry).serial =
      (if (pd_identity (entry_detail w entry) (entry_summary_serial entry)
            (get_str entry "Model")
            (udev_serial_and_model w
              (if (entry_detail w entry).os_path ≠ "" then (entry_detail w entry).os_path
               else extract_os_path entry (some cid)
                 (entry_eid_slot (py_or (get_str entry "EID:Slt") (get_str entry "EID/Slt"))).1
                 (entry_eid_slot (py_or (get_str entry "EID:Slt") (get_str entry "EID/Slt"))).2))).1 = ""
       then "UNKNOWN"
       else (pd_identity (entry_detail w entry) (entry_summary_serial entry)
            (get_str entry "Model")
            (udev_serial_and_model w
              (if (entry_detail w entry).os_path ≠ "" then (entry_detail w entry).os_path
               else extract_os_path entry (some cid)
                 (entry_eid_slot (py_or (get_str entry "EID:Slt") (get_str entry "EID/Slt"))).1
                 (entry_eid_slot (py_or (get_str entry "EID:Slt") (get_str entry "EID/Slt"))).2))).1) := rfl

/-- C7 amended: the extraction precedence is detail-entry first, then the
summary fields, then udev, with the UNKNOWN sentinel last; within the
detail extractor the structured strategies (direct fields, inquiry block,
device-attributes block) precede the recursive regex scan, a direct SN
field always wins, and a regex hit can only fill a serial the structured
strategies left empty. -/
theorem c7_amended_extraction_precedence :
    (∀ (w : StorWorld) (cid : Int) (entry : Json),
        (entry_detail w entry).serial ≠ "" →
        (pd_of_entry w cid entry).serial = (entry_detail w entry).serial)
    ∧ (∀ (w : StorWorld) (cid : Int) (entry : Json),
        (entry_detail w entry).serial = "" → entry_summary_serial entry ≠ "" →
        (pd_of_entry w cid entry).serial = entry_summary_serial entry)
    ∧ (∀ (v : Json) (b : Bool), get_str v "SN" ≠ "" →
        (extract_serial_and_model v b).1 = get_str v "SN")
    ∧ (∀ v : Json, (extract_serial_and_model v false).1 ≠ "" →
        (extract_serial_and_model v true).1 = (extract_serial_and_model v false).1) := by
  have hfalse : ∀ v : Json, extract_serial_and_model v false = extract_structured v := by
    intro v
    unfold extract_serial_and_model
    dsimp only
    split
    · rfl
    · rfl
  refine ⟨?_, ?_, ?_, ?_⟩
  · intro w cid entry hd
    rw [pd_of_entry_serial]
    rw [pd_identity_detail_first _ _ _ _ hd]
    rw [if_neg hd]
  · intro w cid entry hd hs
    rw [pd_of_entry_serial]
    rw [pd_identity_summary_second _ _ _ _ hd hs]
    rw [if_neg hs]
  · intro v b h
    have hs0 : py_or (py_or (get_str v "SN") (get_str v "S/N")) (get_str v "Serial Number")
        = get_str v "SN" := by
      unfold py_or
      rw [if_neg h, if_neg h]
    have hstruct : (extract_structured v).1 = get_str v "SN" := by
      unfold extract_structured
      dsimp only
      rw [hs0, if_neg h, if_neg h]
    cases b with
    | false => rw [hfalse v]; exact hstruct
    | true =>
        unfold extract_serial_and_model
        dsimp only
        rw [if_neg (hstruct ▸ h)]
        exact hstruct
  · intro v h
    rw [hfalse v] at h ⊢
    unfold extract_serial_and_model
    dsimp only
    rw [if_neg h]

/-- C7 amended witness: the precedence theorem applied to the concrete
detail-vs-summary world, a summary-only entry, and a detail block with a
direct SN field next to a regex-minable string. -/
theorem c7_amended_extraction_precedence_witness :
    ((entry_detail c7_world c7_entry).serial ≠ ""
      ∧ (pd_of_entry c7_world 0 c7_entry).serial = (entry_detail c7_world c7_entry).serial)
    ∧ ((entry_detail empty_stor_world c7_entry).serial = ""
      ∧ entry_summary_serial c7_entry ≠ ""
      ∧ (pd_of_entry empty_stor_world 0 c7_entry).serial = entry_summary_serial c7_entry)
    ∧ (get_str (Json.obj (.cons "SN" (.str "CCCC3333") (.cons "Junk" (.str "Serial DDDD4444") .nil))) "SN" ≠ ""
      ∧ (extract_serial_and_model
          (Json.obj (.cons "SN" (.str "CCCC3333") (.cons "Junk" (.str "Serial DDDD4444") .nil))) true).1
        = get_str (Json.obj (.cons "SN" (.str "CCCC3333") (.cons "Junk" (.str "Serial DDDD4444") .nil))) "SN")
    ∧ ((extract_serial_and_model (Json.obj (.cons "SN" (.str "CCCC3333") .nil)) false).1 ≠ ""
      ∧ (extract_serial_and_model (Json.obj (.cons "SN" (.str "CCCC3333") .nil)) true).1
        = (extract_serial_and_model (Json.obj (.cons "SN" (.str "CCCC3333") .nil)) false).1) := by
  refine ⟨⟨by decide, ?_⟩, ⟨by decide, by decide, ?_⟩, ⟨by decide, ?_⟩, ⟨by decide, ?_⟩⟩
  · exact c7_amended_extraction_precedence.1 c7_world 0 c7_entry (by decide)
  · exact c7_amended_extraction_precedence.2.1 empty_stor_world 0 c7_entry (by decide) (by decide)
  · exact c7_amended_extraction_precedence.2.2.1
      (Json.obj (.cons "SN" (.str "CCCC3333") (.cons "Junk" (.str "Serial DDDD4444") .nil))) true
      (by decide)
  · exact c7_amended_extraction_precedence.2.2.2
      (Json.obj (.cons "SN" (.str "CCCC3333") .nil)) (by decide)

end Loeschstation
